import Mathlib

/-!
Verification development for `cyberbrain/value_stack.py`, the value-stack
simulator of the Cyberbrain tracer.  The Python module is shallowly embedded:
Python objects that can reach the simulated stack are modelled by `PyObj`,
Python exceptions by `PyErr` (class name plus message), and every method of
the `ValueStack` class is translated into an explicit-state Lean function.
Fallible Python code (code that can raise) returns `Except PyErr α`.

Crucial faithfulness points, kept exactly as in the source:
  * the `tos` / `tos1` properties and `_pop` *construct* a
    `ValueStackException` on underflow but never `raise` it, so they fall
    through and return Python `None` (here `PyObj.none`);
  * dispatch in `emit_mutation` is `getattr(self, f"_{opname}_handler")`,
    so an unknown opcode raises a plain `AttributeError` naming the missing
    handler attribute;
  * `_UNPACK_EX_handler` asserts `len(self.extended_args) <= 1`.
-/

namespace Cyberbrain

/-- Model of the Python values that the simulator manipulates: `None` (also
the module-level `_placeholder`), strings (provenance labels), ints, and
lists (stack slots are lists of labels). -/
inductive PyObj where
  | none
  | str (s : String)
  | int (n : Int)
  | list (xs : List PyObj)

mutual

def PyObj.decEq : (a b : PyObj) → Decidable (a = b)
  | .none, .none => isTrue rfl
  | .none, .str _ => isFalse (fun h => PyObj.noConfusion h)
  | .none, .int _ => isFalse (fun h => PyObj.noConfusion h)
  | .none, .list _ => isFalse (fun h => PyObj.noConfusion h)
  | .str _, .none => isFalse (fun h => PyObj.noConfusion h)
  | .str a, .str b =>
      if h : a = b then isTrue (by rw [h]) else isFalse (fun he => h (by injection he))
  | .str _, .int _ => isFalse (fun h => PyObj.noConfusion h)
  | .str _, .list _ => isFalse (fun h => PyObj.noConfusion h)
  | .int _, .none => isFalse (fun h => PyObj.noConfusion h)
  | .int _, .str _ => isFalse (fun h => PyObj.noConfusion h)
  | .int a, .int b =>
      if h : a = b then isTrue (by rw [h]) else isFalse (fun he => h (by injection he))
  | .int _, .list _ => isFalse (fun h => PyObj.noConfusion h)
  | .list _, .none => isFalse (fun h => PyObj.noConfusion h)
  | .list _, .str _ => isFalse (fun h => PyObj.noConfusion h)
  | .list _, .int _ => isFalse (fun h => PyObj.noConfusion h)
  | .list xs, .list ys =>
      match PyObj.decEqList xs ys with
      | isTrue h => isTrue (by rw [h])
      | isFalse h => isFalse (fun he => h (by injection he))

def PyObj.decEqList : (xs ys : List PyObj) → Decidable (xs = ys)
  | [], [] => isTrue rfl
  | [], _ :: _ => isFalse (fun h => List.noConfusion h)
  | _ :: _, [] => isFalse (fun h => List.noConfusion h)
  | x :: xs, y :: ys =>
      match PyObj.decEq x y, PyObj.decEqList xs ys with
      | isTrue h1, isTrue h2 => isTrue (by rw [h1, h2])
      | isFalse h1, _ => isFalse (fun he => h1 (by injection he))
      | isTrue _, isFalse h2 => isFalse (fun he => h2 (by injection he))

end

instance : DecidableEq PyObj := PyObj.decEq

/-- A raised Python exception, as observed by the caller: the exception
class name together with its message. -/
structure PyErr where
  cls : String
  msg : String
deriving DecidableEq

/-- Python `str.startswith`: the pattern is a prefix of the string.  Defined
on the underlying character lists so that it evaluates by kernel reduction. -/
def strStartsWith (s p : String) : Bool := List.isPrefixOf p.data s.data

/-- Python iteration over an object (used by `list.extend`, `set(...)` and
tuple unpacking).  Iterating `None` or an int raises `TypeError`; iterating a
string yields its one-character substrings. -/
def pyIter : PyObj → Except PyErr (List PyObj)
  | .list xs => .ok xs
  | .str s => .ok (s.data.map (fun c => .str (String.mk [c])))
  | .none => .error ⟨"TypeError", "NoneType object is not iterable"⟩
  | .int _ => .error ⟨"TypeError", "int object is not iterable"⟩

/-- Python `len(...)`.  `None` and ints have no length. -/
def pyLen : PyObj → Except PyErr Nat
  | .list xs => .ok xs.length
  | .str s => .ok s.length
  | .none => .error ⟨"TypeError", "object of type NoneType has no len"⟩
  | .int _ => .error ⟨"TypeError", "object of type int has no len"⟩

/-- Python subscript `x[0]`. -/
def pyGetItem0 : PyObj → Except PyErr PyObj
  | .list (x :: _) => .ok x
  | .list [] => .error ⟨"IndexError", "list index out of range"⟩
  | .str s =>
      match s.data with
      | c :: _ => .ok (.str (String.mk [c]))
      | [] => .error ⟨"IndexError", "string index out of range"⟩
  | .none => .error ⟨"TypeError", "NoneType object is not subscriptable"⟩
  | .int _ => .error ⟨"TypeError", "int object is not subscriptable"⟩

/-- Whether a Python value is hashable (may be a set element). -/
def pyHashable : PyObj → Bool
  | .list _ => false
  | _ => true

/-- Python `set(x)`: iterate `x` and collect the elements into a set;
unhashable elements raise `TypeError`. -/
def pySet (v : PyObj) : Except PyErr (Finset PyObj) :=
  match pyIter v with
  | .error e => .error e
  | .ok xs =>
      if xs.all pyHashable then .ok xs.toFinset
      else .error ⟨"TypeError", "unhashable type: list"⟩

/-- Modelled from the spec: the `Mutation` record of `cyberbrain/basis.py`,
which is not among the sources; per the spec (section 3) it is
`{ target: TargetRef, sources: set<Label> }`. -/
structure Mutation where
  target : PyObj
  sources : Finset PyObj
deriving DecidableEq

/-- A decoded instruction as consumed by `emit_mutation`: symbolic opcode
name, numeric argument, resolved argument value and representation. -/
structure Instr where
  opname : String
  arg : Nat
  argval : String
  argrepr : String

/-- State of the `ValueStack` class: the simulated evaluation stack (head is
the top of stack) and the list of stored extended arguments. -/
structure ValueStack where
  stack : List PyObj
  extended_args : List Nat

/-- `ValueStack.__init__`: empty stack, no extended args. -/
def ValueStack.init : ValueStack := ⟨[], []⟩

/-- Property `tos`.  On an empty stack the source builds a
`ValueStackException` but does not raise it, so the property silently
returns Python `None`. -/
def ValueStack.tos (s : ValueStack) : PyObj :=
  match s.stack with
  | t :: _ => t
  | [] => PyObj.none

/-- Property `tos1`.  Same swallowed-exception behavior as `tos`. -/
def ValueStack.tos1 (s : ValueStack) : PyObj :=
  match s.stack with
  | _ :: t1 :: _ => t1
  | _ => PyObj.none

/-- `ValueStack._push`: `_placeholder` (`None`) becomes `[]`, a non-list
value is wrapped into a one-element list, a list is pushed as-is. -/
def ValueStack._push (s : ValueStack) (value : PyObj) : ValueStack :=
  let v : PyObj :=
    match value with
    | .none => .list []
    | .list xs => .list xs
    | .str a => .list [.str a]
    | .int a => .list [.int a]
  { s with stack := v :: s.stack }

/-- The list comprehension `[self.stack.pop() for _ in range(n)]`: pops one
element at a time, failing (`Option.none`) when the stack runs dry — by then
every element has already been popped. -/
def popMany : Nat → List PyObj → Option (List PyObj × List PyObj)
  | 0, st => some ([], st)
  | _ + 1, [] => Option.none
  | n + 1, t :: rest =>
      match popMany n rest with
      | some (ps, st) => some (t :: ps, st)
      | Option.none => Option.none

/-- `ValueStack._pop`: returns the popped slot for `n = 1`, a list of popped
slots (topmost first) otherwise.  On underflow the `IndexError` is caught,
the `ValueStackException` is constructed but not raised, and the method
silently returns Python `None`. -/
def ValueStack._pop (s : ValueStack) (n : Nat) : PyObj × ValueStack :=
  if n = 1 then
    match s.stack with
    | [] => (PyObj.none, s)
    | t :: rest => (t, { s with stack := rest })
  else
    match popMany n s.stack with
    | some (ps, rest) => (.list ps, { s with stack := rest })
    | Option.none => (PyObj.none, { s with stack := [] })

/-- `ValueStack._replace_tos`: pop one, push the new value. -/
def ValueStack._replace_tos (s : ValueStack) (new_value : PyObj) : ValueStack :=
  (s._pop 1).2._push new_value

/-- The loop of `_pop_n_push_one`: `for _ in range(n): elements.extend(self._pop())`.
`extend` iterates its argument, so extending with the `None` returned by an
underflowed `_pop` raises `TypeError`. -/
def extendLoop : Nat → List PyObj → ValueStack → Except PyErr (List PyObj × ValueStack)
  | 0, elements, s => .ok (elements, s)
  | n + 1, elements, s =>
      let (v, s1) := s._pop 1
      match pyIter v with
      | .error e => .error e
      | .ok xs => extendLoop n (elements ++ xs) s1

/-- `ValueStack._pop_n_push_one`: pops `n` slots, flattening them into one
list, and pushes that list. -/
def ValueStack._pop_n_push_one (s : ValueStack) (n : Nat) : Except PyErr ValueStack :=
  match extendLoop n [] s with
  | .error e => .error e
  | .ok (elements, s1) => .ok (s1._push (.list elements))

/-- The loop `for _ in range(n): self._push(tos)`. -/
def pushLoop : Nat → PyObj → ValueStack → ValueStack
  | 0, _, s => s
  | n + 1, v, s => pushLoop n v (s._push v)

/-- `ValueStack._pop_one_push_n`: pops one slot and pushes it `n` times.
Note that on an empty stack `_pop` silently yields `None`, which `_push`
converts to `[]`, so this primitive never raises. -/
def ValueStack._pop_one_push_n (s : ValueStack) (n : Nat) : ValueStack :=
  let (t, s1) := s._pop 1
  pushLoop n t s1

/-- The uniform result type of an instruction handler: either a raised
exception, or an optional `Mutation` together with the updated state. -/
abbrev HandlerResult := Except PyErr (Option Mutation × ValueStack)

/-- `_POP_TOP_handler`. -/
def ValueStack._POP_TOP_handler (s : ValueStack) (_ : Instr) : HandlerResult :=
  .ok (none, (s._pop 1).2)

/-- `_ROT_TWO_handler`: `tos, tos1 = self._pop(2)` then push `tos`, push
`tos1`.  Unpacking iterates the value `_pop` returned, so an underflowed
(`None`) result raises `TypeError`. -/
def ValueStack._ROT_TWO_handler (s : ValueStack) (_ : Instr) : HandlerResult :=
  let (v, s1) := s._pop 2
  match pyIter v with
  | .error e => .error e
  | .ok [a, b] => .ok (none, (s1._push a)._push b)
  | .ok _ => .error ⟨"ValueError", "values to unpack do not number two"⟩

/-- `_DUP_TOP_handler`: pushes `self.tos` without popping. -/
def ValueStack._DUP_TOP_handler (s : ValueStack) (_ : Instr) : HandlerResult :=
  .ok (none, s._push s.tos)

/-- `_UNARY_POSITIVE_handler`: no-op. -/
def ValueStack._UNARY_POSITIVE_handler (s : ValueStack) (_ : Instr) : HandlerResult :=
  .ok (none, s)

/-- `_UNARY_NEGATIVE_handler`: no-op. -/
def ValueStack._UNARY_NEGATIVE_handler (s : ValueStack) (_ : Instr) : HandlerResult :=
  .ok (none, s)

/-- `_UNARY_NOT_handler`: no-op. -/
def ValueStack._UNARY_NOT_handler (s : ValueStack) (_ : Instr) : HandlerResult :=
  .ok (none, s)

/-- `_UNARY_INVERT_handler`: no-op. -/
def ValueStack._UNARY_INVERT_handler (s : ValueStack) (_ : Instr) : HandlerResult :=
  .ok (none, s)

/-- `_BINARY_operation_handler`: the shared handler of all `BINARY_*`
opcodes, `self._pop_n_push_one(2)`. -/
def ValueStack._BINARY_operation_handler (s : ValueStack) (_ : Instr) : HandlerResult :=
  match s._pop_n_push_one 2 with
  | .error e => .error e
  | .ok s1 => .ok (none, s1)

/-- `_RETURN_VALUE_handler`: pop one. -/
def ValueStack._RETURN_VALUE_handler (s : ValueStack) (_ : Instr) : HandlerResult :=
  .ok (none, (s._pop 1).2)

/-- `_STORE_NAME_handler`: builds `Mutation(target=instr.argval,
sources=set(self.tos))`, pops one, returns the mutation. -/
def ValueStack._STORE_NAME_handler (s : ValueStack) (instr : Instr) : HandlerResult :=
  match pySet s.tos with
  | .error e => .error e
  | .ok srcs => .ok (some ⟨.str instr.argval, srcs⟩, (s._pop 1).2)

/-- `_UNPACK_SEQUENCE_handler`: `self._pop_one_push_n(instr.arg)`. -/
def ValueStack._UNPACK_SEQUENCE_handler (s : ValueStack) (instr : Instr) : HandlerResult :=
  .ok (none, s._pop_one_push_n instr.arg)

/-- `_UNPACK_EX_handler`: asserts `len(self.extended_args) <= 1`, pops one
slot and pushes `sum(self.extended_args) + 1 + instr.arg` copies of it, then
clears the extended args. -/
def ValueStack._UNPACK_EX_handler (s : ValueStack) (instr : Instr) : HandlerResult :=
  if s.extended_args.length ≤ 1 then
    let number_of_receivers := s.extended_args.sum + 1 + instr.arg
    let s1 := s._pop_one_push_n number_of_receivers
    .ok (none, { s1 with extended_args := [] })
  else .error ⟨"AssertionError", ""⟩

/-- `_STORE_ATTR_handler`: asserts `len(self.tos) == 1`, then builds
`Mutation(target=self.tos[0], sources=set(self.tos1))` without touching the
stack.  Python evaluates `len(self.tos)` before the assertion comparison and
the `Mutation` arguments left to right. -/
def ValueStack._STORE_ATTR_handler (s : ValueStack) (_ : Instr) : HandlerResult :=
  match pyLen s.tos with
  | .error e => .error e
  | .ok l =>
      if l = 1 then
        match pyGetItem0 s.tos with
        | .error e => .error e
        | .ok t =>
            match pySet s.tos1 with
            | .error e => .error e
            | .ok srcs => .ok (some ⟨t, srcs⟩, s)
      else .error ⟨"AssertionError", ""⟩

/-- `_LOAD_CONST_handler`: pushes the placeholder. -/
def ValueStack._LOAD_CONST_handler (s : ValueStack) (_ : Instr) : HandlerResult :=
  .ok (none, s._push PyObj.none)

/-- `_LOAD_NAME_handler`: pushes the name (`instr.argrepr`), never a value. -/
def ValueStack._LOAD_NAME_handler (s : ValueStack) (instr : Instr) : HandlerResult :=
  .ok (none, s._push (.str instr.argrepr))

/-- `_BUILD_TUPLE_handler`: `self._pop_n_push_one(instr.arg)`. -/
def ValueStack._BUILD_TUPLE_handler (s : ValueStack) (instr : Instr) : HandlerResult :=
  match s._pop_n_push_one instr.arg with
  | .error e => .error e
  | .ok s1 => .ok (none, s1)

/-- `_BUILD_LIST_handler`: delegates to `_BUILD_TUPLE_handler`. -/
def ValueStack._BUILD_LIST_handler (s : ValueStack) (instr : Instr) : HandlerResult :=
  s._BUILD_TUPLE_handler instr

/-- `_BUILD_SET_handler`: delegates to `_BUILD_TUPLE_handler`. -/
def ValueStack._BUILD_SET_handler (s : ValueStack) (instr : Instr) : HandlerResult :=
  s._BUILD_TUPLE_handler instr

/-- `_BUILD_MAP_handler`: `self._pop_n_push_one(instr.arg * 2)`. -/
def ValueStack._BUILD_MAP_handler (s : ValueStack) (instr : Instr) : HandlerResult :=
  match s._pop_n_push_one (instr.arg * 2) with
  | .error e => .error e
  | .ok s1 => .ok (none, s1)

/-- `_BUILD_CONST_KEY_MAP_handler`: `self._pop_n_push_one(instr.arg + 1)`. -/
def ValueStack._BUILD_CONST_KEY_MAP_handler (s : ValueStack) (instr : Instr) : HandlerResult :=
  match s._pop_n_push_one (instr.arg + 1) with
  | .error e => .error e
  | .ok s1 => .ok (none, s1)

/-- `_LOAD_ATTR_handler`: deliberately a no-op.  Replacing the top of stack
with the attribute value would erase the identity of the owning object,
which a later store needs; the handler body is empty, so the stack and the
extended args are untouched and no mutation is emitted. -/
def ValueStack._LOAD_ATTR_handler (s : ValueStack) (_ : Instr) : HandlerResult :=
  .ok (none, s)

/-- `_LOAD_FAST_handler`: pushes `instr.argrepr`. -/
def ValueStack._LOAD_FAST_handler (s : ValueStack) (instr : Instr) : HandlerResult :=
  .ok (none, s._push (.str instr.argrepr))

/-- `_STORE_FAST_handler`: delegates to `_STORE_NAME_handler`. -/
def ValueStack._STORE_FAST_handler (s : ValueStack) (instr : Instr) : HandlerResult :=
  s._STORE_NAME_handler instr

/-- `_LOAD_METHOD_handler`: pop one. -/
def ValueStack._LOAD_METHOD_handler (s : ValueStack) (_ : Instr) : HandlerResult :=
  .ok (none, (s._pop 1).2)

/-- `_CALL_METHOD_handler`: assumed no-argument call, a no-op. -/
def ValueStack._CALL_METHOD_handler (s : ValueStack) (_ : Instr) : HandlerResult :=
  .ok (none, s)

/-- `_EXTENDED_ARG_handler`: appends `instr.arg` to the stored extended
args; the stack is untouched. -/
def ValueStack._EXTENDED_ARG_handler (s : ValueStack) (instr : Instr) : HandlerResult :=
  .ok (none, { s with extended_args := s.extended_args ++ [instr.arg] })

/-- `ValueStack.emit_mutation`: opcodes starting with `BINARY_` all go to the
shared binary handler (and the bare `return` yields no mutation); every
other opcode is dispatched by name, `getattr` raising `AttributeError` for a
name with no `_<opname>_handler` method. -/
def ValueStack.emit_mutation (s : ValueStack) (instr : Instr) : HandlerResult :=
  if strStartsWith instr.opname "BINARY_" then
    match s._BINARY_operation_handler instr with
    | .error e => .error e
    | .ok (_, s1) => .ok (none, s1)
  else
    match instr.opname with
    | "POP_TOP" => s._POP_TOP_handler instr
    | "ROT_TWO" => s._ROT_TWO_handler instr
    | "DUP_TOP" => s._DUP_TOP_handler instr
    | "UNARY_POSITIVE" => s._UNARY_POSITIVE_handler instr
    | "UNARY_NEGATIVE" => s._UNARY_NEGATIVE_handler instr
    | "UNARY_NOT" => s._UNARY_NOT_handler instr
    | "UNARY_INVERT" => s._UNARY_INVERT_handler instr
    | "RETURN_VALUE" => s._RETURN_VALUE_handler instr
    | "STORE_NAME" => s._STORE_NAME_handler instr
    | "UNPACK_SEQUENCE" => s._UNPACK_SEQUENCE_handler instr
    | "UNPACK_EX" => s._UNPACK_EX_handler instr
    | "STORE_ATTR" => s._STORE_ATTR_handler instr
    | "LOAD_CONST" => s._LOAD_CONST_handler instr
    | "LOAD_NAME" => s._LOAD_NAME_handler instr
    | "BUILD_TUPLE" => s._BUILD_TUPLE_handler instr
    | "BUILD_LIST" => s._BUILD_LIST_handler instr
    | "BUILD_SET" => s._BUILD_SET_handler instr
    | "BUILD_MAP" => s._BUILD_MAP_handler instr
    | "BUILD_CONST_KEY_MAP" => s._BUILD_CONST_KEY_MAP_handler instr
    | "LOAD_ATTR" => s._LOAD_ATTR_handler instr
    | "LOAD_FAST" => s._LOAD_FAST_handler instr
    | "STORE_FAST" => s._STORE_FAST_handler instr
    | "LOAD_METHOD" => s._LOAD_METHOD_handler instr
    | "CALL_METHOD" => s._CALL_METHOD_handler instr
    | "EXTENDED_ARG" => s._EXTENDED_ARG_handler instr
    | other => .error ⟨"AttributeError",
        "ValueStack object has no attribute _" ++ other ++ "_handler"⟩

/-- The opcode names that have a dedicated `_<opname>_handler` method on
`ValueStack` (the shared `BINARY_` prefix is matched separately). -/
def handledOpnames : List String :=
  ["POP_TOP", "ROT_TWO", "DUP_TOP", "UNARY_POSITIVE", "UNARY_NEGATIVE",
   "UNARY_NOT", "UNARY_INVERT", "RETURN_VALUE", "STORE_NAME",
   "UNPACK_SEQUENCE", "UNPACK_EX", "STORE_ATTR", "LOAD_CONST", "LOAD_NAME",
   "BUILD_TUPLE", "BUILD_LIST", "BUILD_SET", "BUILD_MAP",
   "BUILD_CONST_KEY_MAP", "LOAD_ATTR", "LOAD_FAST", "STORE_FAST",
   "LOAD_METHOD", "CALL_METHOD", "EXTENDED_ARG"]

/-- Driving loop of the surrounding tracer: feed the instruction sequence of
a frame to `emit_mutation` in order, collecting the per-instruction
mutation results; a raised exception terminates simulation of the frame. -/
def runSeq : List Instr → ValueStack → Except PyErr (ValueStack × List (Option Mutation))
  | [], s => .ok (s, [])
  | i :: rest, s =>
      match s.emit_mutation i with
      | .error e => .error e
      | .ok (m, s1) =>
          match runSeq rest s1 with
          | .error e => .error e
          | .ok (s2, ms) => .ok (s2, m :: ms)

/-- A provenance label: a Python string. -/
def isLabel : PyObj → Bool
  | .str _ => true
  | _ => false

/-- A well-formed stack slot: a Python list all of whose elements are
labels.  In particular a slot is never a bare scalar, never the placeholder
`None`, and never contains the placeholder. -/
def isGoodSlot : PyObj → Bool
  | .list xs => xs.all isLabel
  | _ => false

/-- Every slot of the simulated stack is well formed. -/
def goodStack (s : ValueStack) : Bool := s.stack.all isGoodSlot

/-- Values that may be handed to `_push` without breaking well-formedness:
the placeholder, a label, or a flat list of labels. -/
def pushOk : PyObj → Bool
  | .none => true
  | .str _ => true
  | .int _ => false
  | .list xs => xs.all isLabel

/-! Dispatch equations of `emit_mutation` for fixed opcode names; each holds
by kernel reduction of the prefix test and of the name match. -/

lemma emit_mutation_STORE_ATTR (s : ValueStack) (arg : Nat) (av ar : String) :
    s.emit_mutation ⟨"STORE_ATTR", arg, av, ar⟩
      = s._STORE_ATTR_handler ⟨"STORE_ATTR", arg, av, ar⟩ := rfl

lemma emit_mutation_UNPACK_EX (s : ValueStack) (arg : Nat) (av ar : String) :
    s.emit_mutation ⟨"UNPACK_EX", arg, av, ar⟩
      = s._UNPACK_EX_handler ⟨"UNPACK_EX", arg, av, ar⟩ := rfl

lemma emit_mutation_BINARY (s : ValueStack) (instr : Instr)
    (h : strStartsWith instr.opname "BINARY_" = true) :
    s.emit_mutation instr
      = match s._BINARY_operation_handler instr with
        | .error e => .error e
        | .ok (_, s1) => .ok (none, s1) := by
  unfold ValueStack.emit_mutation
  rw [h]
  simp only [if_true]

/-- C1: the claim says a pop or peek on a stack with fewer slots than
requested raises a stack-underflow failure that propagates and is never
silently swallowed.  The code constructs the `ValueStackException` but never
raises it: on an empty stack `_pop` and the `tos` / `tos1` properties
silently return the `None` sentinel, and processing `POP_TOP` on an empty
stack succeeds without any error.  This theorem evaluates the code at that
failing input, exhibiting the silent sentinel. -/
theorem C1_underflow_silently_swallowed :
    ValueStack.init._pop 1 = (PyObj.none, ValueStack.init)
  ∧ ValueStack.init.tos = PyObj.none
  ∧ ValueStack.init.tos1 = PyObj.none
  ∧ ValueStack.init.emit_mutation ⟨"POP_TOP", 0, "", ""⟩ = .ok (none, ValueStack.init) :=
  ⟨rfl, rfl, rfl, rfl⟩

/-- C2 (counterexample): processing the unknown opcode `LOAD_GLOBAL` fails
with a Python `AttributeError`, whose class is not the claimed
`UnsupportedInstructionError`. -/
theorem C2_counterexample_attribute_error :
    ValueStack.init.emit_mutation ⟨"LOAD_GLOBAL", 0, "", ""⟩
      = .error ⟨"AttributeError", "ValueStack object has no attribute _LOAD_GLOBAL_handler"⟩
  ∧ PyErr.cls ⟨"AttributeError", "ValueStack object has no attribute _LOAD_GLOBAL_handler"⟩
      ≠ "UnsupportedInstructionError" :=
  ⟨rfl, by decide⟩

/-- C2 (amended): for every instruction whose opcode name has no registered
handler and does not begin with the shared `BINARY_` prefix, `emit_mutation`
fails with a Python `AttributeError` — not a dedicated
`UnsupportedInstructionError` — whose message names the missing handler for
the unknown opcode, and the error propagates to the caller. -/
theorem C2_unknown_opcode_fails (s : ValueStack) (instr : Instr)
    (h1 : strStartsWith instr.opname "BINARY_" = false)
    (h2 : instr.opname ∉ handledOpnames) :
    s.emit_mutation instr = .error ⟨"AttributeError",
      "ValueStack object has no attribute _" ++ instr.opname ++ "_handler"⟩ := by
  unfold ValueStack.emit_mutation
  rw [h1]
  simp only [Bool.false_eq_true, if_false]
  split <;> simp_all [handledOpnames]

/-- Witness for C2: the theorem applied to the concrete unknown opcode
`LOAD_GLOBAL` on the initial stack. -/
theorem C2_unknown_opcode_fails_witness :
    strStartsWith "LOAD_GLOBAL" "BINARY_" = false
  ∧ "LOAD_GLOBAL" ∉ handledOpnames
  ∧ ValueStack.init.emit_mutation ⟨"LOAD_GLOBAL", 0, "", ""⟩ = .error ⟨"AttributeError",
      "ValueStack object has no attribute _" ++ "LOAD_GLOBAL" ++ "_handler"⟩ :=
  ⟨by decide, by decide,
    C2_unknown_opcode_fails ValueStack.init ⟨"LOAD_GLOBAL", 0, "", ""⟩ (by decide) (by decide)⟩

/-- C3 (counterexample): the claimed sequence, starting from an empty stack,
produces no result at all — `runSeq` raises, so no `Mutation` with target
`"b"` and sources `{"b"}` is returned. -/
theorem C3_counterexample_no_mutation :
    (runSeq [⟨"LOAD_NAME", 0, "b", "b"⟩, ⟨"LOAD_ATTR", 1, "x", "x"⟩, ⟨"STORE_ATTR", 2, "y", "y"⟩]
        ValueStack.init).toOption = none := rfl

/-- C3 (amended): starting from an empty stack, processing the sequence
[load name `b`, load-attribute `x`, store-attribute `y`] fails with a
`TypeError`: the stack holds a single slot, so the swallowed-underflow
`tos1` peek yields the `None` sentinel and `set(None)` raises; no mutation
is emitted. -/
theorem C3_sequence_raises_type_error :
    runSeq [⟨"LOAD_NAME", 0, "b", "b"⟩, ⟨"LOAD_ATTR", 1, "x", "x"⟩, ⟨"STORE_ATTR", 2, "y", "y"⟩]
        ValueStack.init
      = .error ⟨"TypeError", "NoneType object is not iterable"⟩ := rfl

/-- C4: processing a load-attribute instruction is a no-op: for every state
and every operand, the stack (depth and every slot) and the extended-args
accumulator are unchanged and no mutation is returned. -/
theorem C4_load_attr_noop (arg : Nat) (av ar : String) (s : ValueStack) :
    s.emit_mutation ⟨"LOAD_ATTR", arg, av, ar⟩ = .ok (none, s) := rfl

/-- C10: processing an unpack-with-remainder instruction with two or more
pending extended-arg values fails the `assert len(self.extended_args) <= 1`
assertion instead of spreading. -/
theorem C10_unpack_ex_asserts (arg : Nat) (av ar : String) (s : ValueStack)
    (h : 2 ≤ s.extended_args.length) :
    s.emit_mutation ⟨"UNPACK_EX", arg, av, ar⟩ = .error ⟨"AssertionError", ""⟩ := by
  rw [emit_mutation_UNPACK_EX]
  unfold ValueStack._UNPACK_EX_handler
  rw [if_neg (by omega)]

/-- Witness for C10: two pending extended-arg values, instruction argument 0. -/
theorem C10_unpack_ex_asserts_witness :
    2 ≤ (ValueStack.mk [] [1, 2]).extended_args.length
  ∧ ValueStack.emit_mutation ⟨[], [1, 2]⟩ ⟨"UNPACK_EX", 0, "", ""⟩
      = .error ⟨"AssertionError", ""⟩ :=
  ⟨by decide, C10_unpack_ex_asserts 0 "" "" ⟨[], [1, 2]⟩ (by decide)⟩

lemma pushLoop_list (n : Nat) (xs : List PyObj) (s : ValueStack) :
    pushLoop n (.list xs) s
      = ⟨List.replicate n (.list xs) ++ s.stack, s.extended_args⟩ := by
  induction n generalizing s with
  | zero => rfl
  | succ k ih =>
      rw [pushLoop, ih]
      show (⟨List.replicate k (.list xs) ++ (PyObj.list xs :: s.stack),
          s.extended_args⟩ : ValueStack) = _
      rw [List.replicate_succ', List.append_assoc]
      rfl

lemma pop_one_push_n_cons (n : Nat) (xs : List PyObj) (rest : List PyObj) (ea : List Nat) :
    ValueStack._pop_one_push_n ⟨.list xs :: rest, ea⟩ n
      = ⟨List.replicate n (.list xs) ++ rest, ea⟩ := by
  show pushLoop n (.list xs) ⟨rest, ea⟩ = _
  exact pushLoop_list n xs ⟨rest, ea⟩

lemma extendLoop_lists (ls : List (List PyObj)) (elements : List PyObj)
    (rest : List PyObj) (ea : List Nat) :
    extendLoop ls.length elements ⟨ls.map PyObj.list ++ rest, ea⟩
      = .ok (elements ++ ls.flatten, ⟨rest, ea⟩) := by
  induction ls generalizing elements with
  | nil => simp [extendLoop]
  | cons hd tl ih =>
      show extendLoop (tl.length + 1) elements
          ⟨.list hd :: (tl.map PyObj.list ++ rest), ea⟩ = _
      rw [extendLoop]
      show extendLoop tl.length (elements ++ hd) ⟨tl.map PyObj.list ++ rest, ea⟩ = _
      rw [ih]
      simp [List.append_assoc]

/-- C5: every opcode whose name begins with `BINARY_` pops the top two
slots, pushes their concatenation (whose label set is the union of the two
operand label sets), and emits no mutation; in particular the sequence
[load name `a`, load name `b`, binary-add] from an empty stack leaves
exactly one slot whose label set is `{a, b}`. -/
theorem C5_binary_merges_provenance (instr : Instr) (xs ys rest : List PyObj) (ea : List Nat)
    (h : strStartsWith instr.opname "BINARY_" = true) :
    ValueStack.emit_mutation ⟨.list xs :: .list ys :: rest, ea⟩ instr
        = .ok (none, ⟨.list (xs ++ ys) :: rest, ea⟩)
  ∧ (xs ++ ys).toFinset = xs.toFinset ∪ ys.toFinset
  ∧ runSeq [⟨"LOAD_NAME", 0, "a", "a"⟩, ⟨"LOAD_NAME", 0, "b", "b"⟩, ⟨"BINARY_ADD", 0, "", ""⟩]
        ValueStack.init
      = .ok (⟨[.list [.str "b", .str "a"]], []⟩, [none, none, none])
  ∧ ([PyObj.str "b", PyObj.str "a"] : List PyObj).toFinset
      = {PyObj.str "a", PyObj.str "b"} := by
  refine ⟨?_, List.toFinset_append, rfl, by simp [Finset.pair_comm]⟩
  rw [emit_mutation_BINARY _ _ h]
  rfl

/-- Witness for C5: `BINARY_ADD` on a two-slot stack `[{b}, {a}]`. -/
theorem C5_binary_merges_provenance_witness :
    strStartsWith "BINARY_ADD" "BINARY_" = true
  ∧ (ValueStack.emit_mutation ⟨[.list [PyObj.str "b"], .list [PyObj.str "a"]], []⟩
          ⟨"BINARY_ADD", 0, "", ""⟩
        = .ok (none, ⟨[.list ([PyObj.str "b"] ++ [PyObj.str "a"])], []⟩)
      ∧ ([PyObj.str "b"] ++ [PyObj.str "a"]).toFinset
          = [PyObj.str "b"].toFinset ∪ [PyObj.str "a"].toFinset
      ∧ runSeq [⟨"LOAD_NAME", 0, "a", "a"⟩, ⟨"LOAD_NAME", 0, "b", "b"⟩, ⟨"BINARY_ADD", 0, "", ""⟩]
            ValueStack.init
          = .ok (⟨[.list [.str "b", .str "a"]], []⟩, [none, none, none])
      ∧ ([PyObj.str "b", PyObj.str "a"] : List PyObj).toFinset
          = {PyObj.str "a", PyObj.str "b"}) :=
  ⟨rfl, C5_binary_merges_provenance ⟨"BINARY_ADD", 0, "", ""⟩
    [PyObj.str "b"] [PyObj.str "a"] [] [] rfl⟩

/-- C6: with at most one pending extended-arg value, an unpack-with-remainder
instruction pops the top slot and pushes `sum of pending extended args + 1 +
instruction argument` copies of it, then clears the extended-arg
accumulator, emitting no mutation. -/
theorem C6_unpack_ex_spread (arg : Nat) (av ar : String) (xs : List PyObj)
    (rest : List PyObj) (ea : List Nat) (h : ea.length ≤ 1) :
    ValueStack.emit_mutation ⟨.list xs :: rest, ea⟩ ⟨"UNPACK_EX", arg, av, ar⟩
      = .ok (none, ⟨List.replicate (ea.sum + 1 + arg) (.list xs) ++ rest, []⟩) := by
  rw [emit_mutation_UNPACK_EX]
  unfold ValueStack._UNPACK_EX_handler
  rw [if_pos h]
  simp only [pop_one_push_n_cons]

/-- Witness for C6: one pending extended-arg value `2` and instruction
argument `1` push exactly `2 + 1 + 1 = 4` copies. -/
theorem C6_unpack_ex_spread_witness :
    ([2] : List Nat).length ≤ 1
  ∧ ([2] : List Nat).sum + 1 + 1 = 4
  ∧ ValueStack.emit_mutation ⟨[.list [PyObj.str "t"]], [2]⟩ ⟨"UNPACK_EX", 1, "", ""⟩
      = .ok (none, ⟨List.replicate (([2] : List Nat).sum + 1 + 1) (.list [PyObj.str "t"]) ++ [], []⟩) :=
  ⟨by decide, by decide, C6_unpack_ex_spread 1 "" "" [PyObj.str "t"] [] [2] (by decide)⟩

/-- C7: for every `n` slots `S1..Sn` on top of the stack, `_pop_n_push_one n`
pops them and pushes a single flat slot whose label set is the union of the
`Si`, so the depth decreases by exactly `n - 1`. -/
theorem C7_merge_conservation (ls : List (List PyObj)) (rest : List PyObj) (ea : List Nat) :
    ValueStack._pop_n_push_one ⟨ls.map PyObj.list ++ rest, ea⟩ ls.length
      = .ok ⟨.list ls.flatten :: rest, ea⟩
  ∧ (PyObj.list ls.flatten :: rest).length + ls.length
      = (ls.map PyObj.list ++ rest).length + 1
  ∧ ls.flatten.toFinset = ls.foldr (fun l acc => l.toFinset ∪ acc) ∅ := by
  refine ⟨?_, ?_, ?_⟩
  · unfold ValueStack._pop_n_push_one
    rw [extendLoop_lists]
    rfl
  · simp only [List.length_cons, List.length_append, List.length_map]
    omega
  · induction ls with
    | nil => simp
    | cons hd tl ih => simp [List.toFinset_append, ih]

/-- C9: processing a store-attribute instruction leaves the stack (and the
whole state) unchanged whenever it succeeds, and the emitted mutation is
built by reading the top slot (target, its only label) and the
second-from-top slot (sources). -/
theorem C9_store_attr_preserves_stack (arg : Nat) (av ar : String) (s : ValueStack)
    (m : Option Mutation) (s2 : ValueStack)
    (h : s.emit_mutation ⟨"STORE_ATTR", arg, av, ar⟩ = .ok (m, s2)) :
    s2 = s ∧ m ≠ none
  ∧ Option.map Mutation.target m = (pyGetItem0 s.tos).toOption
  ∧ Option.map Mutation.sources m = (pySet s.tos1).toOption := by
  rw [emit_mutation_STORE_ATTR] at h
  unfold ValueStack._STORE_ATTR_handler at h
  split at h
  · exact absurd h (by simp)
  · split at h
    · split at h
      · exact absurd h (by simp)
      · rename_i t ht
        split at h
        · exact absurd h (by simp)
        · rename_i srcs hsrcs
          injection h with h1
          rw [Prod.ext_iff] at h1
          obtain ⟨hm, hs2⟩ := h1
          subst hm
          subst hs2
          exact ⟨rfl, by simp, by simp [ht, Except.toOption], by simp [hsrcs, Except.toOption]⟩
    · exact absurd h (by simp)

/-- Witness for C9: a successful store-attribute on the stack `[{b}, {a}]`
(top first) leaves the state unchanged and emits target `b`, sources `{a}`. -/
theorem C9_store_attr_preserves_stack_witness :
    (⟨[.list [PyObj.str "b"], .list [PyObj.str "a"]], []⟩ : ValueStack)
      = ⟨[.list [PyObj.str "b"], .list [PyObj.str "a"]], []⟩
  ∧ (some (⟨.str "b", ([PyObj.str "a"] : List PyObj).toFinset⟩ : Mutation) ≠ none)
  ∧ Option.map Mutation.target (some (⟨.str "b", ([PyObj.str "a"] : List PyObj).toFinset⟩ : Mutation))
      = (pyGetItem0 (ValueStack.tos ⟨[.list [PyObj.str "b"], .list [PyObj.str "a"]], []⟩)).toOption
  ∧ Option.map Mutation.sources (some (⟨.str "b", ([PyObj.str "a"] : List PyObj).toFinset⟩ : Mutation))
      = (pySet (ValueStack.tos1 ⟨[.list [PyObj.str "b"], .list [PyObj.str "a"]], []⟩)).toOption :=
  C9_store_attr_preserves_stack 2 "y" "y"
    ⟨[.list [PyObj.str "b"], .list [PyObj.str "a"]], []⟩
    (some ⟨.str "b", ([PyObj.str "a"] : List PyObj).toFinset⟩)
    ⟨[.list [PyObj.str "b"], .list [PyObj.str "a"]], []⟩ rfl

/-! Preservation of slot well-formedness (`goodStack`) by every handler,
leading to the reachable-state invariant of claim C8. -/

lemma goodStack_stack (x : ValueStack) (ea : List Nat) :
    goodStack ⟨x.stack, ea⟩ = goodStack x := rfl

lemma push_good (s : ValueStack) (v : PyObj) (hs : goodStack s = true)
    (hv : pushOk v = true) : goodStack (s._push v) = true := by
  cases v <;> simp_all [ValueStack._push, goodStack, isGoodSlot, pushOk, isLabel]

lemma pop1_state_good (s : ValueStack) (hs : goodStack s = true) :
    goodStack (s._pop 1).2 = true := by
  obtain ⟨st, ea⟩ := s
  cases st with
  | nil => exact hs
  | cons t r =>
      simp only [goodStack, List.all_cons, Bool.and_eq_true] at hs
      exact hs.2

lemma pop1_val_good (s : ValueStack) (hs : goodStack s = true) :
    (s._pop 1).1 = PyObj.none ∨ isGoodSlot (s._pop 1).1 = true := by
  obtain ⟨st, ea⟩ := s
  cases st with
  | nil => exact Or.inl rfl
  | cons t r =>
      simp only [goodStack, List.all_cons, Bool.and_eq_true] at hs
      exact Or.inr hs.1

lemma tos_good (s : ValueStack) (hs : goodStack s = true) :
    s.tos = PyObj.none ∨ isGoodSlot s.tos = true := by
  obtain ⟨st, ea⟩ := s
  cases st with
  | nil => exact Or.inl rfl
  | cons t r =>
      simp only [goodStack, List.all_cons, Bool.and_eq_true] at hs
      exact Or.inr hs.1

lemma pushOk_of_good (v : PyObj) (h : v = PyObj.none ∨ isGoodSlot v = true) :
    pushOk v = true := by
  cases v <;> simp_all [isGoodSlot, pushOk]

lemma pushLoop_good (n : Nat) (v : PyObj) (s : ValueStack)
    (hs : goodStack s = true) (hv : pushOk v = true) :
    goodStack (pushLoop n v s) = true := by
  induction n generalizing s with
  | zero => exact hs
  | succ k ih => exact ih _ (push_good s v hs hv)

lemma pop_one_push_n_good (s : ValueStack) (n : Nat) (hs : goodStack s = true) :
    goodStack (s._pop_one_push_n n) = true := by
  unfold ValueStack._pop_one_push_n
  exact pushLoop_good n _ _ (pop1_state_good s hs)
    (pushOk_of_good _ (pop1_val_good s hs))

lemma extendLoop_good (n : Nat) (elements : List PyObj) (s : ValueStack)
    (hs : goodStack s = true) (he : elements.all isLabel = true) :
    ∀ out s1, extendLoop n elements s = .ok (out, s1) →
      out.all isLabel = true ∧ goodStack s1 = true := by
  induction n generalizing elements s with
  | zero =>
      intro out s1 h
      replace h : (Except.ok (elements, s) : Except PyErr (List PyObj × ValueStack))
          = .ok (out, s1) := h
      injection h with h1
      injection h1 with h2 h3
      exact ⟨h2 ▸ he, h3 ▸ hs⟩
  | succ k ih =>
      intro out s1 h
      obtain ⟨st, ea⟩ := s
      cases st with
      | nil =>
          replace h : (Except.error ⟨"TypeError", "NoneType object is not iterable"⟩
              : Except PyErr (List PyObj × ValueStack)) = .ok (out, s1) := h
          exact Except.noConfusion h
      | cons t r =>
          simp only [goodStack, List.all_cons, Bool.and_eq_true] at hs
          obtain ⟨ht, hr⟩ := hs
          cases t with
          | none => simp [isGoodSlot] at ht
          | str a => simp [isGoodSlot] at ht
          | int a => simp [isGoodSlot] at ht
          | list ws =>
              replace h : extendLoop k (elements ++ ws) ⟨r, ea⟩ = .ok (out, s1) := h
              simp only [isGoodSlot] at ht
              exact ih (elements ++ ws) ⟨r, ea⟩ hr
                (by simp_all [List.all_append]) out s1 h

lemma pop_n_push_one_good (s : ValueStack) (n : Nat) (s1 : ValueStack)
    (hs : goodStack s = true) (h : s._pop_n_push_one n = .ok s1) :
    goodStack s1 = true := by
  unfold ValueStack._pop_n_push_one at h
  split at h
  · exact Except.noConfusion h
  · rename_i elements s2 heq
    injection h with h1
    obtain ⟨hall, hgood⟩ := extendLoop_good n [] s hs rfl elements s2 heq
    exact h1 ▸ push_good s2 (.list elements) hgood (by simpa [pushOk] using hall)

lemma popMany_good (n : Nat) (st ps rest : List PyObj)
    (hs : st.all isGoodSlot = true) (h : popMany n st = some (ps, rest)) :
    ps.all isGoodSlot = true ∧ rest.all isGoodSlot = true := by
  induction n generalizing st ps rest with
  | zero =>
      replace h : (some ([], st) : Option (List PyObj × List PyObj)) = some (ps, rest) := h
      injection h with h1
      injection h1 with h2 h3
      exact ⟨h2 ▸ rfl, h3 ▸ hs⟩
  | succ k ih =>
      cases st with
      | nil => exact Option.noConfusion h
      | cons t r =>
          simp only [List.all_cons, Bool.and_eq_true] at hs
          rw [popMany] at h
          split at h
          · rename_i ps2 st2 heq
            injection h with h1
            injection h1 with h2 h3
            obtain ⟨hp, hr⟩ := ih r ps2 st2 hs.2 heq
            refine ⟨h2 ▸ ?_, h3 ▸ hr⟩
            simp [List.all_cons, hs.1, hp]
          · exact Option.noConfusion h

lemma match_pnpo_good (s : ValueStack) (n : Nat) (m : Option Mutation) (s1 : ValueStack)
    (hs : goodStack s = true)
    (h : (match s._pop_n_push_one n with
          | .error e => .error e
          | .ok s2 => .ok (none, s2)) = (Except.ok (m, s1) : HandlerResult)) :
    goodStack s1 = true := by
  split at h
  · exact Except.noConfusion h
  · rename_i s2 heq
    injection h with h1
    injection h1 with hm1 hs1
    exact hs1 ▸ pop_n_push_one_good s n s2 hs heq

lemma ROT_TWO_good (s : ValueStack) (i : Instr) (m : Option Mutation) (s1 : ValueStack)
    (hs : goodStack s = true) (h : s._ROT_TWO_handler i = .ok (m, s1)) :
    goodStack s1 = true := by
  unfold ValueStack._ROT_TWO_handler at h
  obtain ⟨st, ea⟩ := s
  rcases hpm : popMany 2 st with _ | ⟨ps, rest⟩
  · simp [ValueStack._pop, hpm, pyIter] at h
  · obtain ⟨hps, hrest⟩ := popMany_good 2 st ps rest hs hpm
    simp only [ValueStack._pop, hpm] at h
    norm_num at h
    rcases ps with _ | ⟨a, _ | ⟨b, _ | ⟨c, ps3⟩⟩⟩ <;> simp only [pyIter] at h
    · exact Except.noConfusion h
    · exact Except.noConfusion h
    · injection h with h1
      injection h1 with hm1 hs1
      simp only [List.all_cons, List.all_nil, Bool.and_eq_true] at hps
      refine hs1 ▸ push_good _ b ?_ (pushOk_of_good b (Or.inr hps.2.1))
      exact push_good ⟨rest, ea⟩ a hrest (pushOk_of_good a (Or.inr hps.1))
    · exact Except.noConfusion h

lemma STORE_NAME_good (s : ValueStack) (i : Instr) (m : Option Mutation) (s1 : ValueStack)
    (hs : goodStack s = true) (h : s._STORE_NAME_handler i = .ok (m, s1)) :
    goodStack s1 = true := by
  unfold ValueStack._STORE_NAME_handler at h
  split at h
  · exact Except.noConfusion h
  · injection h with h1
    injection h1 with hm1 hs1
    exact hs1 ▸ pop1_state_good s hs

lemma STORE_ATTR_good (s : ValueStack) (i : Instr) (m : Option Mutation) (s1 : ValueStack)
    (hs : goodStack s = true) (h : s._STORE_ATTR_handler i = .ok (m, s1)) :
    goodStack s1 = true := by
  unfold ValueStack._STORE_ATTR_handler at h
  split at h
  · exact Except.noConfusion h
  · split at h
    · split at h
      · exact Except.noConfusion h
      · split at h
        · exact Except.noConfusion h
        · injection h with h1
          injection h1 with hm1 hs1
          exact hs1 ▸ hs
    · exact Except.noConfusion h

lemma UNPACK_EX_good (s : ValueStack) (i : Instr) (m : Option Mutation) (s1 : ValueStack)
    (hs : goodStack s = true) (h : s._UNPACK_EX_handler i = .ok (m, s1)) :
    goodStack s1 = true := by
  unfold ValueStack._UNPACK_EX_handler at h
  split at h
  · injection h with h1
    injection h1 with hm1 hs1
    refine hs1 ▸ ?_
    rw [goodStack_stack]
    exact pop_one_push_n_good s _ hs
  · exact Except.noConfusion h

lemma emit_good (s : ValueStack) (i : Instr) (m : Option Mutation) (s1 : ValueStack)
    (hs : goodStack s = true) (h : s.emit_mutation i = .ok (m, s1)) :
    goodStack s1 = true := by
  unfold ValueStack.emit_mutation at h
  split at h
  · split at h
    · exact Except.noConfusion h
    · rename_i mm s2 heq
      injection h with h1
      injection h1 with hm1 hs1
      refine hs1 ▸ ?_
      unfold ValueStack._BINARY_operation_handler at heq
      exact match_pnpo_good s 2 mm s2 hs heq
  · split at h
    · -- POP_TOP
      unfold ValueStack._POP_TOP_handler at h
      injection h with h1
      injection h1 with hm1 hs1
      exact hs1 ▸ pop1_state_good s hs
    · exact ROT_TWO_good s i m s1 hs h
    · -- DUP_TOP
      unfold ValueStack._DUP_TOP_handler at h
      injection h with h1
      injection h1 with hm1 hs1
      exact hs1 ▸ push_good s s.tos hs (pushOk_of_good _ (tos_good s hs))
    · -- UNARY_POSITIVE
      unfold ValueStack._UNARY_POSITIVE_handler at h
      injection h with h1
      injection h1 with hm1 hs1
      exact hs1 ▸ hs
    · unfold ValueStack._UNARY_NEGATIVE_handler at h
      injection h with h1
      injection h1 with hm1 hs1
      exact hs1 ▸ hs
    · unfold ValueStack._UNARY_NOT_handler at h
      injection h with h1
      injection h1 with hm1 hs1
      exact hs1 ▸ hs
    · unfold ValueStack._UNARY_INVERT_handler at h
      injection h with h1
      injection h1 with hm1 hs1
      exact hs1 ▸ hs
    · -- RETURN_VALUE
      unfold ValueStack._RETURN_VALUE_handler at h
      injection h with h1
      injection h1 with hm1 hs1
      exact hs1 ▸ pop1_state_good s hs
    · exact STORE_NAME_good s i m s1 hs h
    · -- UNPACK_SEQUENCE
      unfold ValueStack._UNPACK_SEQUENCE_handler at h
      injection h with h1
      injection h1 with hm1 hs1
      exact hs1 ▸ pop_one_push_n_good s _ hs
    · exact UNPACK_EX_good s i m s1 hs h
    · exact STORE_ATTR_good s i m s1 hs h
    · -- LOAD_CONST
      unfold ValueStack._LOAD_CONST_handler at h
      injection h with h1
      injection h1 with hm1 hs1
      exact hs1 ▸ push_good s PyObj.none hs rfl
    · -- LOAD_NAME
      unfold ValueStack._LOAD_NAME_handler at h
      injection h with h1
      injection h1 with hm1 hs1
      exact hs1 ▸ push_good s (.str i.argrepr) hs rfl
    · -- BUILD_TUPLE
      unfold ValueStack._BUILD_TUPLE_handler at h
      exact match_pnpo_good s i.arg m s1 hs h
    · -- BUILD_LIST
      unfold ValueStack._BUILD_LIST_handler ValueStack._BUILD_TUPLE_handler at h
      exact match_pnpo_good s i.arg m s1 hs h
    · -- BUILD_SET
      unfold ValueStack._BUILD_SET_handler ValueStack._BUILD_TUPLE_handler at h
      exact match_pnpo_good s i.arg m s1 hs h
    · -- BUILD_MAP
      unfold ValueStack._BUILD_MAP_handler at h
      exact match_pnpo_good s (i.arg * 2) m s1 hs h
    · -- BUILD_CONST_KEY_MAP
      unfold ValueStack._BUILD_CONST_KEY_MAP_handler at h
      exact match_pnpo_good s (i.arg + 1) m s1 hs h
    · -- LOAD_ATTR
      unfold ValueStack._LOAD_ATTR_handler at h
      injection h with h1
      injection h1 with hm1 hs1
      exact hs1 ▸ hs
    · -- LOAD_FAST
      unfold ValueStack._LOAD_FAST_handler at h
      injection h with h1
      injection h1 with hm1 hs1
      exact hs1 ▸ push_good s (.str i.argrepr) hs rfl
    · -- STORE_FAST
      unfold ValueStack._STORE_FAST_handler at h
      exact STORE_NAME_good s i m s1 hs h
    · -- LOAD_METHOD
      unfold ValueStack._LOAD_METHOD_handler at h
      injection h with h1
      injection h1 with hm1 hs1
      exact hs1 ▸ pop1_state_good s hs
    · -- CALL_METHOD
      unfold ValueStack._CALL_METHOD_handler at h
      injection h with h1
      injection h1 with hm1 hs1
      exact hs1 ▸ hs
    · -- EXTENDED_ARG
      unfold ValueStack._EXTENDED_ARG_handler at h
      injection h with h1
      injection h1 with hm1 hs1
      refine hs1 ▸ ?_
      rw [goodStack_stack]
      exact hs
    · exact Except.noConfusion h

lemma runSeq_good (instrs : List Instr) (s sf : ValueStack) (ms : List (Option Mutation))
    (hs : goodStack s = true) (h : runSeq instrs s = .ok (sf, ms)) :
    goodStack sf = true := by
  induction instrs generalizing s ms with
  | nil =>
      replace h : (Except.ok (s, ([] : List (Option Mutation)))
          : Except PyErr (ValueStack × List (Option Mutation))) = .ok (sf, ms) := h
      injection h with h1
      injection h1 with h2 h3
      exact h2 ▸ hs
  | cons i rest ih =>
      rw [runSeq] at h
      split at h
      · exact Except.noConfusion h
      · rename_i m1 s2 heq
        split at h
        · exact Except.noConfusion h
        · rename_i s3 ms3 heq2
          injection h with h1
          injection h1 with h2 h3
          exact ih s2 ms3 (emit_good s i m1 s2 hs heq) (h2 ▸ heq2)

/-- C8: after processing any instruction sequence from the initial state,
every slot of the evaluation stack is a list of provenance labels — never a
bare scalar and never the placeholder, which also never occurs inside a
slot — and pushing the placeholder always yields the empty-label slot. -/
theorem C8_slots_are_label_sets (instrs : List Instr) (sf : ValueStack)
    (ms : List (Option Mutation))
    (h : runSeq instrs ValueStack.init = .ok (sf, ms)) :
    goodStack sf = true
  ∧ ∀ t : ValueStack, (t._push PyObj.none).stack = PyObj.list [] :: t.stack :=
  ⟨runSeq_good instrs ValueStack.init sf ms rfl h, fun _ => rfl⟩

/-- Witness for C8: the one-instruction sequence `[LOAD_CONST]` reaches the
state whose single slot is the empty label set. -/
theorem C8_slots_are_label_sets_witness :
    goodStack ⟨[.list []], []⟩ = true
  ∧ ∀ t : ValueStack, (t._push PyObj.none).stack = PyObj.list [] :: t.stack :=
  C8_slots_are_label_sets [⟨"LOAD_CONST", 0, "1", "1"⟩] ⟨[.list []], []⟩ [none] rfl

end Cyberbrain
